import Mathlib

/-!
Verification development for the consult_backend booking lifecycle and
payment-reconciliation engine.

Conventions of the shallow embedding:
* timestamps (`TIMESTAMP WITH TIME ZONE`) are integers, seconds since the Unix
  epoch in UTC; `TIME` values are integers, seconds since midnight;
* SQL tables are lists of rows; a Postgres half-open `tstzrange(s, e)` built
  with bounds `[)` is the pair `(s, e)`, empty when `s ≥ e`;
* fallible operations return `Except`/`Option`;
* external HTTP collaborators (payment gateway, video provider) are passed in
  as function parameters so their responses can be quantified over.
-/

namespace Consult

/-- A row of the `bookings` table (Go struct `store.Booking`; columns per the
migrations: `start_time`/`end_time` timestamps, `payment_status`, `bk_status`,
nullable `transaction_id` and `zoom_meeting_id`). -/
structure Booking where
  id : Int
  userId : Int
  expertId : Int
  startTime : Int
  endTime : Int
  topic : String
  additionalNotes : String
  totalAmount : Int
  paymentStatus : String
  bkStatus : String
  transactionId : Option String
  zoomMeetingId : Option Int
  deriving Repr, DecidableEq

/-- A row of the `experts` table, restricted to the columns the booking
trigger consults (`id`, `user_id`). -/
structure ExpertRow where
  id : Int
  userId : Int
  deriving Repr, DecidableEq

/-- A row of the `expert_availabilities` table: weekly window for one weekday,
with `TIME` bounds (`000026_create_expert_availabilities_table.up.sql`). -/
structure Availability where
  expertId : Int
  dayOfWeek : Int
  startTod : Int
  endTod : Int
  deriving Repr, DecidableEq

/-- The slice of database state consulted by booking creation. -/
structure DbState where
  experts : List ExpertRow
  availabilities : List Availability
  bookings : List Booking
  deriving Repr, DecidableEq

/-- Weekday (0 = Sunday … 6 = Saturday) of a UTC timestamp; the Unix epoch
fell on a Thursday (= 4). Embeds `TO_CHAR(ts AT TIME ZONE 'UTC', 'FMday')`. -/
def weekdayOf (t : Int) : Int :=
  (Int.ediv t 86400 + 4).emod 7

/-- Time-of-day in seconds of a UTC timestamp; embeds `ts::TIME`. -/
def timeOfDay (t : Int) : Int :=
  t.emod 86400

/-- Overlap test for half-open Postgres ranges `tstzrange(s, e, '[)')` under
the `&&` operator: empty ranges overlap nothing. -/
def rangesOverlap (s1 e1 s2 e2 : Int) : Bool :=
  decide (s1 < e1) && decide (s2 < e2) && decide (s1 < e2) && decide (s2 < e1)

/-- The `bk_status` values that participate in the partial exclusion
constraints (`WHERE bk_status IN ('pending', 'confirmed')`). -/
def isActiveStatus (s : String) : Bool :=
  s == "pending" || s == "confirmed"

/-- `SELECT user_id FROM experts WHERE id = eid` (first row or NULL). -/
def expertUserId (db : DbState) (eid : Int) : Option Int :=
  (db.experts.find? (fun e => e.id == eid)).map (fun e => e.userId)

/-- The availability lookup of trigger `enforce_booking_rules`: some window of
the expert for the start timestamp's weekday fully contains the time-of-day
projection of `[start, end)`. -/
def withinAvailability (db : DbState) (nb : Booking) : Bool :=
  db.availabilities.any (fun w =>
    w.expertId == nb.expertId && w.dayOfWeek == weekdayOf nb.startTime &&
    decide (w.startTod ≤ timeOfDay nb.startTime) &&
    decide (timeOfDay nb.endTime ≤ w.endTod))

/-- Rejection reasons of the booking pipeline. The first five are raised by
trigger `enforce_booking_rules` (in migration 000029), the last two by the
exclusion constraints `no_expert_overlap` / `no_user_overlap`;
`invalidDuration` is used only by the spec-ordered validator below. -/
inductive RejectReason where
  | selfBooking
  | pastBooking
  | endNotAfterStart
  | durationTooShort
  | outsideAvailability
  | expertOverlap
  | clientOverlap
  | invalidDuration
  deriving Repr, DecidableEq

/-- Trigger `enforce_booking_rules()` from
`000029_add_booking_constraints_and_triggers.up.sql`, checks in source order:
(0) expert booking himself, (1) start in the past, (2) end ≤ start,
(3) duration < 30 minutes, (4) outside availability. -/
def enforceBookingRules (db : DbState) (now : Int) (nb : Booking) :
    Except RejectReason Unit :=
  if expertUserId db nb.expertId == some nb.userId then .error .selfBooking
  else if decide (nb.startTime < now) then .error .pastBooking
  else if decide (nb.endTime ≤ nb.startTime) then .error .endNotAfterStart
  else if decide (nb.endTime - nb.startTime < 1800) then .error .durationTooShort
  else if !withinAvailability db nb then .error .outsideAvailability
  else .ok ()

/-- Exclusion constraint `no_expert_overlap`: the candidate row conflicts with
a stored row when both satisfy the constraint predicate (active status), the
expert matches, and the time ranges overlap. -/
def expertOverlapConflict (rows : List Booking) (nb : Booking) : Bool :=
  isActiveStatus nb.bkStatus && rows.any (fun b =>
    isActiveStatus b.bkStatus && b.expertId == nb.expertId &&
    rangesOverlap b.startTime b.endTime nb.startTime nb.endTime)

/-- Exclusion constraint `no_user_overlap`, same shape keyed on `user_id`. -/
def userOverlapConflict (rows : List Booking) (nb : Booking) : Bool :=
  isActiveStatus nb.bkStatus && rows.any (fun b =>
    isActiveStatus b.bkStatus && b.userId == nb.userId &&
    rangesOverlap b.startTime b.endTime nb.startTime nb.endTime)

/-- The columns `BookingStore.Insert` supplies; the remaining columns take
their table defaults. -/
structure BookingRequest where
  userId : Int
  expertId : Int
  startTime : Int
  endTime : Int
  topic : String
  additionalNotes : String
  totalAmount : Int
  deriving Repr, DecidableEq

/-- The row produced by `BookingStore.Insert`: defaults
`payment_status = 'pending'`, `bk_status = 'pending'`, NULL transaction and
meeting references. -/
def newRow (req : BookingRequest) (id : Int) : Booking :=
  { id := id
    userId := req.userId
    expertId := req.expertId
    startTime := req.startTime
    endTime := req.endTime
    topic := req.topic
    additionalNotes := req.additionalNotes
    totalAmount := req.totalAmount
    paymentStatus := "pending"
    bkStatus := "pending"
    transactionId := none
    zoomMeetingId := none }

/-- `BookingStore.Insert` as executed by Postgres: the BEFORE INSERT trigger
`enforce_booking_rules` fires first; if it passes, the row is checked against
the exclusion constraints, and only then stored. -/
def insertBooking (db : DbState) (now : Int) (req : BookingRequest)
    (newId : Int) : Except RejectReason DbState :=
  let nb := newRow req newId
  match enforceBookingRules db now nb with
  | .error e => .error e
  | .ok _ =>
    if expertOverlapConflict db.bookings nb then .error .expertOverlap
    else if userOverlapConflict db.bookings nb then .error .clientOverlap
    else .ok { db with bookings := nb :: db.bookings }

/-- Two booking rows are compatible when, if both are active and for the same
expert, their time ranges do not overlap. -/
def compatibleExpert (b1 b2 : Booking) : Prop :=
  isActiveStatus b1.bkStatus = true → isActiveStatus b2.bkStatus = true →
  b1.expertId = b2.expertId →
  rangesOverlap b1.startTime b1.endTime b2.startTime b2.endTime = false

/-- The stored-table invariant backed by `no_expert_overlap`. -/
def NoExpertOverlap (rows : List Booking) : Prop :=
  rows.Pairwise compatibleExpert

/-- The Conflict Validator rule order as the SPEC states it (§4.1, "Rules, in
order, first failure wins"): past-time, duration (both sub-checks reported as
`invalidDuration`), availability, expert overlap, client overlap, and
self-booking LAST. Written from the spec's words only, to be compared against
the source-derived order. -/
def specOrderValidate (db : DbState) (now : Int) (nb : Booking) :
    Except RejectReason Unit :=
  if decide (nb.startTime < now) then .error .pastBooking
  else if decide (nb.endTime ≤ nb.startTime) ||
      decide (nb.endTime - nb.startTime < 1800) then .error .invalidDuration
  else if !withinAvailability db nb then .error .outsideAvailability
  else if expertOverlapConflict db.bookings nb then .error .expertOverlap
  else if userOverlapConflict db.bookings nb then .error .clientOverlap
  else if expertUserId db nb.expertId == some nb.userId then .error .selfBooking
  else .ok ()

/-- The ordered rule list the source actually applies on insert: the trigger's
checks in their textual order (self-booking FIRST), then the exclusion
constraints, which Postgres evaluates only after the BEFORE INSERT trigger. -/
def codeRuleOrder (db : DbState) (now : Int) (nb : Booking) :
    List (Bool × RejectReason) :=
  [ (expertUserId db nb.expertId == some nb.userId, .selfBooking),
    (decide (nb.startTime < now), .pastBooking),
    (decide (nb.endTime ≤ nb.startTime), .endNotAfterStart),
    (decide (nb.endTime - nb.startTime < 1800), .durationTooShort),
    (!withinAvailability db nb, .outsideAvailability),
    (expertOverlapConflict db.bookings nb, .expertOverlap),
    (userOverlapConflict db.bookings nb, .clientOverlap) ]

/-- First failing rule of an ordered rule list. -/
def firstFailure : List (Bool × RejectReason) → Option RejectReason
  | [] => none
  | (b, r) :: rest => if b then some r else firstFailure rest

/-! ## Payment reconciliation (`Payunit.GetPaymentStatus` and its stores) -/

/-- A row of `payunit_payment_status`, restricted to the key and the field the
claims inspect (`transaction_id`, `transaction_status`). -/
structure StatusRecord where
  transactionId : String
  status : String
  deriving Repr, DecidableEq

/-- A row of `zoom_meetings`, restricted to the columns the reconciliation
claims inspect: local id, provider-assigned id, creating user. -/
structure MeetingRow where
  id : Int
  zoomMeetingId : Int
  createdBy : Int
  deriving Repr, DecidableEq

/-- The provider response `zoom.CreateZoomMeeting` yields (after its own
defensive checks), restricted to the provider-assigned meeting id. -/
structure ZoomMeetingInfo where
  meetingId : Int
  deriving Repr, DecidableEq

/-- Database state touched by payment reconciliation. `experts` and
`availabilities` are consulted by the `validate_booking_time` trigger that
re-fires on every bookings UPDATE; `nextMeetingRowId` is the `zoom_meetings`
id sequence. -/
structure PayState where
  experts : List ExpertRow
  availabilities : List Availability
  bookings : List Booking
  meetings : List MeetingRow
  statusRecords : List StatusRecord
  nextMeetingRowId : Int
  deriving Repr, DecidableEq

/-- The database slice `enforce_booking_rules` reads when fired by an UPDATE
on `bookings`: the `experts` and `expert_availabilities` tables (the trigger
never reads other bookings rows, so that component is left empty). -/
@[reducible] def PayState.rulesDb (st : PayState) : DbState :=
  { experts := st.experts, availabilities := st.availabilities,
    bookings := [] }

/-- `BookingStore.GetByID`: `SELECT ... FROM bookings WHERE id = $1`. -/
def bookingGetByID (rows : List Booking) (bid : Int) : Option Booking :=
  rows.find? (fun b => b.id == bid)

/-- `BookingStore.GetByTransactionID`. -/
def bookingGetByTransactionID (rows : List Booking) (txn : String) :
    Option Booking :=
  rows.find? (fun b => b.transactionId == some txn)

/-- Row transformer of `BookingStore.UpdatePaymentStatus`:
`UPDATE bookings SET payment_status = $2 WHERE id = $1 AND user_id = $3`. -/
def updPSfun (bid : Int) (ps : String) (uid : Int) (b : Booking) : Booking :=
  if b.id == bid && b.userId == uid then { b with paymentStatus := ps } else b

/-- How a bookings UPDATE statement can fail: zero rows affected
(`ErrRecordNotFound` in the store), or the `validate_booking_time` BEFORE
UPDATE trigger raising on some updated row (a Postgres exception aborting the
statement, surfaced to Go as an error). -/
inductive UpdateError where
  | notFound
  | ruleViolation (r : RejectReason)
  deriving Repr, DecidableEq

/-- `BookingStore.UpdatePaymentStatus`
(`UPDATE bookings SET payment_status = $2 WHERE id = $1 AND user_id = $3`).
Migration 000029 attaches `validate_booking_time` BEFORE INSERT OR UPDATE, so
the trigger re-runs `enforce_booking_rules` on the NEW version of every
matched row; any violation aborts the statement and no row is changed. The
exclusion constraints also apply to updates, but this statement leaves
`expert_id`, `user_id` and the generated `time_range` untouched and keeps
`bk_status` as it was, so they cannot newly fire and are not modelled here. -/
def bookingsUpdatePaymentStatus (ctx : DbState) (now : Int)
    (rows : List Booking) (bid : Int) (ps : String) (uid : Int) :
    Except UpdateError (List Booking) :=
  if rows.any (fun b => b.id == bid && b.userId == uid) then
    match rows.findSome? (fun b =>
      if b.id == bid && b.userId == uid then
        match enforceBookingRules ctx now (updPSfun bid ps uid b) with
        | .error e => some e
        | .ok _ => none
      else none) with
    | some e => .error (.ruleViolation e)
    | none => .ok (rows.map (updPSfun bid ps uid))
  else .error .notFound

/-- Row transformer of `BookingStore.Update`: `UPDATE bookings SET
zoom_meeting_id, start_time, end_time, topic, additional_notes, bk_status
WHERE id = $1` (it does not touch payment_status or transaction_id). -/
def updBkFun (nb : Booking) (b : Booking) : Booking :=
  if b.id == nb.id then
    { b with
      zoomMeetingId := nb.zoomMeetingId
      startTime := nb.startTime
      endTime := nb.endTime
      topic := nb.topic
      additionalNotes := nb.additionalNotes
      bkStatus := nb.bkStatus }
  else b

/-- `BookingStore.Update` (`UPDATE bookings SET zoom_meeting_id, start_time,
end_time, topic, additional_notes, bk_status WHERE id = $1`). As above, the
`validate_booking_time` trigger re-runs `enforce_booking_rules` on the NEW
version of every matched row and aborts the statement on a violation. (The
reconcile call site passes the fetched booking's own unchanged time range and
keeps `bk_status` within the active set, so the exclusion constraints cannot
newly fire there; they are not modelled for updates.) -/
def bookingsUpdate (ctx : DbState) (now : Int) (rows : List Booking)
    (nb : Booking) : Except UpdateError (List Booking) :=
  if rows.any (fun b => b.id == nb.id) then
    match rows.findSome? (fun b =>
      if b.id == nb.id then
        match enforceBookingRules ctx now (updBkFun nb b) with
        | .error e => some e
        | .ok _ => none
      else none) with
    | some e => .error (.ruleViolation e)
    | none => .ok (rows.map (updBkFun nb))
  else .error .notFound

/-- `PayunitStore.CheckPaymentStatusExists`: `SELECT COUNT(1) ... WHERE
transaction_id = $1`, reported as `count > 0`. -/
def checkPaymentStatusExists (recs : List StatusRecord) (txn : String) : Bool :=
  recs.any (fun r => r.transactionId == txn)

/-- `PayunitStore.InsertPaymentStatus`: appends a fresh status row. -/
def insertPaymentStatus (recs : List StatusRecord) (txn status : String) :
    List StatusRecord :=
  recs ++ [{ transactionId := txn, status := status }]

/-- Errors `Payunit.GetPaymentStatus` can return. -/
inductive ReconcileError where
  | bookingNotFound
  | noTransactionId
  | gatewayFailed
  | updateFailed (e : UpdateError)
  | zoomCreationFailed
  | unknownGatewayStatus (s : String)
  deriving Repr, DecidableEq

/-- Step 4 of `Payunit.GetPaymentStatus`: insert the status record only when
no record for the transaction id exists yet (the source never calls
`PayunitStore.UpdatePaymentStatus`). -/
def recordUpsert (st : PayState) (txn status : String) : PayState :=
  if checkPaymentStatusExists st.statusRecords txn then st
  else { st with
         statusRecords := insertPaymentStatus st.statusRecords txn status }

/-- The PENDING / FAILED / CANCELLED arms of the status switch: update the
booking's payment_status (trigger included) and return the fetched status. -/
def applySimpleStatus (now : Int) (st : PayState) (bid : Int) (ps : String)
    (uid : Int) (fetched : String) : PayState × Except ReconcileError String :=
  match bookingsUpdatePaymentStatus st.rulesDb now st.bookings bid ps uid with
  | .error e => (st, .error (.updateFailed e))
  | .ok rows => ({ st with bookings := rows }, .ok fetched)

/-- `Payunit.GetPaymentStatus` (internal/aws/s3bucket.go, package payunit).
`gateway` abstracts the HTTP status fetch for a transaction id (an `.error` is
any transport/HTTP/parse failure); `zoomCreate` abstracts
`zoom.CreateZoomMeeting`. The returned `PayState` is the database state left
behind: each store call commits separately, so mutations made before a later
error persist. Source order: fetch booking, require its transaction id, fetch
gateway status, insert the status record only when none exists for the
transaction id, then switch on the fetched status; the SUCCESS arm first sets
payment_status to paid, returns early when the fetched booking already
references a meeting, otherwise creates the meeting, inserts it, and writes
the meeting reference plus `bk_status = confirmed` via `Booking.Update`. -/
def getPaymentStatus (now : Int) (st : PayState) (bookingID : Int)
    (gateway : String → Except Unit String)
    (zoomCreate : Booking → Except Unit ZoomMeetingInfo) :
    PayState × Except ReconcileError String :=
  match bookingGetByID st.bookings bookingID with
  | none => (st, .error .bookingNotFound)
  | some booking =>
    match booking.transactionId with
    | none => (st, .error .noTransactionId)
    | some txn =>
      match gateway txn with
      | .error _ => (st, .error .gatewayFailed)
      | .ok status =>
        let st1 := recordUpsert st txn status
        if status == "PENDING" then
          applySimpleStatus now st1 bookingID "pending" booking.userId status
        else if status == "SUCCESS" then
          match bookingsUpdatePaymentStatus st1.rulesDb now st1.bookings
              bookingID "paid" booking.userId with
          | .error e => (st1, .error (.updateFailed e))
          | .ok rows1 =>
            let st2 := { st1 with bookings := rows1 }
            if booking.zoomMeetingId.isSome then (st2, .ok status)
            else
              match zoomCreate booking with
              | .error _ => (st2, .error .zoomCreationFailed)
              | .ok info =>
                let mid := st2.nextMeetingRowId
                let st3 := { st2 with
                  meetings := st2.meetings ++
                    [{ id := mid, zoomMeetingId := info.meetingId,
                       createdBy := booking.userId }]
                  nextMeetingRowId := mid + 1 }
                match bookingsUpdate st3.rulesDb now st3.bookings
                    { booking with
                      zoomMeetingId := some mid, bkStatus := "confirmed" } with
                | .error e => (st3, .error (.updateFailed e))
                | .ok rows2 => ({ st3 with bookings := rows2 }, .ok status)
        else if status == "FAILED" then
          applySimpleStatus now st1 bookingID "failed" booking.userId status
        else if status == "CANCELLED" then
          applySimpleStatus now st1 bookingID "cancelled" booking.userId status
        else (st1, .error (.unknownGatewayStatus status))

/-! ## Payment-gateway webhook (`application.payunitWebHookHandler`) -/

/-- The JSON body the gateway webhook decodes (cmd/api/bookings.go). -/
structure PayunitWebhookPayload where
  transactionStatus : String
  transactionGateway : String
  transactionAmount : Int
  transactionId : String
  message : String
  transactionCurrency : String
  notifyURL : String
  callbackURL : String
  deriving Repr, DecidableEq

/-- `application.payunitWebHookHandler`, modulo I/O: `bookingIDParam` is the
parsed `bookingID` query parameter (`none` = missing or unparsable, answered
400); `liveMode`/`remoteAddrTrusted` model the STEP-5 source-IP check that is
active only in live mode. The handler looks the booking up by the payload's
transaction id, rejects on mismatch, and then delegates every state change to
`getPaymentStatus`, which re-fetches the status from the gateway; the
payload's other fields are only logged. -/
def payunitWebHookHandler (now : Int) (st : PayState)
    (payload : PayunitWebhookPayload) (bookingIDParam : Option Int)
    (liveMode : Bool) (remoteAddrTrusted : Bool)
    (gateway : String → Except Unit String)
    (zoomCreate : Booking → Except Unit ZoomMeetingInfo) : Nat × PayState :=
  match bookingIDParam with
  | none => (400, st)
  | some _ =>
    if liveMode && !remoteAddrTrusted then (401, st)
    else
      match bookingGetByTransactionID st.bookings payload.transactionId with
      | none => (400, st)
      | some booking =>
        if booking.transactionId == some payload.transactionId then
          match getPaymentStatus now st booking.id gateway zoomCreate with
          | (st2, .error _) => (500, st2)
          | (st2, .ok _) => (200, st2)
        else (400, st)

/-! ## Video-provider webhook (`application.zoomWebhookHandler`) -/

/-- Expected signature of a provider webhook: the keyed hash (`mac secret
message`, abstracting HMAC-SHA256 hex) of `"v0:" + timestamp + ":" + body`,
prefixed with `"v0="`. -/
def expectedZoomSignature (mac : String → String → String)
    (secret ts body : String) : String :=
  "v0=" ++ mac secret ("v0:" ++ ts ++ ":" ++ body)

/-- `application.zoomWebhookHandler`, authentication layer. Headers come from
`r.Header.Get`, which yields `""` when absent. The guard runs before anything
touches the store: missing header or signature mismatch answers 401 with the
state untouched; only the authorized branch (the event dispatch, abstracted
as `authorized` over an arbitrary state type) may mutate state. -/
def zoomWebhookHandler (σ : Type) (mac : String → String → String)
    (secret : String) (authorized : String → σ → Nat × σ)
    (signature timestamp body : String) (st : σ) : Nat × σ :=
  if signature == "" || timestamp == "" then (401, st)
  else if signature == expectedZoomSignature mac secret timestamp body then
    authorized body st
  else (401, st)

/-! ## Deferred end-session task (`MeetingScheduler.ScheduleEndMeeting`) -/

/-- The task options `ScheduleEndMeeting` passes to the queue client
(internal/mtgschelduler): queue "meetings", fire time, `MaxRetry(3)`,
`Timeout(30 * time.Second)`. -/
structure TaskConfig where
  queue : String
  processAt : Int
  maxRetry : Nat
  timeoutSeconds : Nat
  deriving Repr, DecidableEq

/-- The task `ScheduleEndMeeting` builds: queue "meetings", `ProcessAt` the
end time, `MaxRetry(3)`, `Timeout(30 * time.Second)`. -/
def endMeetingTask (endTime : Int) : TaskConfig :=
  { queue := "meetings", processAt := endTime, maxRetry := 3,
    timeoutSeconds := 30 }

/-- `MeetingScheduler.ScheduleEndMeeting`: rejects when the fire time is in
the past (`time.Until(endTime) < 0`), otherwise enqueues the task with the
fixed retry bound and per-attempt timeout. -/
def scheduleEndMeeting (now : Int) (endTime : Int) : Except String TaskConfig :=
  if decide (endTime < now) then .error "end time is in the past"
  else .ok (endMeetingTask endTime)

/-- The outcome of running one scheduled task, with the number of handler
executions used. -/
inductive TaskOutcome where
  | succeeded (attemptsUsed : Nat)
  | abandoned (attemptsUsed : Nat)
  deriving Repr, DecidableEq

/-- Handler executions recorded in an outcome. -/
def TaskOutcome.attemptsUsed : TaskOutcome → Nat
  | .succeeded n => n
  | .abandoned n => n

/-- Modelled from the spec: the worker loop that consumes a scheduled task
lives in the external queue library, not in this repository's sources; the
spec's task-execution contract (§4.4) says "at most 3 attempts, each bounded
by a fixed timeout; on final failure the task is abandoned and surfaced
through the error-reporting channel, never retried indefinitely".
`attemptOk n` abstracts whether the n-th handler execution, run under the
per-attempt timeout, succeeds. `budget` is the remaining attempt budget. -/
def runTaskAttempts (budget : Nat) (used : Nat) (attemptOk : Nat → Bool) :
    TaskOutcome :=
  match budget with
  | 0 => .abandoned used
  | Nat.succ k =>
    if attemptOk used then .succeeded (used + 1)
    else runTaskAttempts k (used + 1) attemptOk

/-- Modelled from the spec: run a scheduled task under its configured attempt
budget. -/
def runScheduledTask (cfg : TaskConfig) (attemptOk : Nat → Bool) : TaskOutcome :=
  runTaskAttempts cfg.maxRetry 0 attemptOk

/-! ## Concrete states used by counterexamples and witnesses -/

/-- One expert (id 1, owned by user 10), no availabilities, empty table. -/
def ceDb : DbState :=
  { experts := [{ id := 1, userId := 10 }], availabilities := [], bookings := [] }

/-- A request by the expert's own user for a past slot: violates both the
self-booking rule and the past-time rule. -/
def ceReq : BookingRequest :=
  { userId := 10, expertId := 1, startTime := -100, endTime := 1800,
    topic := "t", additionalNotes := "", totalAmount := 1 }

/-- One expert (id 1, owned by user 100) available all Thursday, empty table. -/
def wDb : DbState :=
  { experts := [{ id := 1, userId := 100 }],
    availabilities := [{ expertId := 1, dayOfWeek := 4, startTod := 0,
                         endTod := 86400 }],
    bookings := [] }

/-- A valid 30-minute request by user 2 at the epoch (a Thursday). -/
def wReq : BookingRequest :=
  { userId := 2, expertId := 1, startTime := 0, endTime := 1800,
    topic := "t", additionalNotes := "", totalAmount := 1 }

/-- The state after successfully inserting `wReq` into `wDb`. -/
def wDb2 : DbState :=
  { wDb with bookings := [newRow wReq 1] }

/-- Booking #42: already paid and confirmed, meeting 1 attached, scheduled
for a slot (2000, 4000) that is still in the future at reconcile time 0 and
inside expert 1's Thursday availability, so the booking trigger admits
updates to this row. -/
def bk42 : Booking :=
  { id := 42, userId := 7, expertId := 1, startTime := 2000, endTime := 4000,
    topic := "t", additionalNotes := "", totalAmount := 5,
    paymentStatus := "paid", bkStatus := "confirmed",
    transactionId := some "txn42", zoomMeetingId := some 1 }

/-- State holding booking #42 in its paid terminal state. -/
def c2State : PayState :=
  { experts := [{ id := 1, userId := 100 }],
    availabilities := [{ expertId := 1, dayOfWeek := 4, startTod := 0,
                         endTod := 86400 }],
    bookings := [bk42],
    meetings := [{ id := 1, zoomMeetingId := 9000, createdBy := 7 }],
    statusRecords := [{ transactionId := "txn42", status := "SUCCESS" }],
    nextMeetingRowId := 2 }

/-- Booking #7: pending payment, transaction t7, no session yet, scheduled
for the future slot (2000, 4000) inside expert 1's availability, so the
booking trigger admits updates to this row at reconcile time 0. -/
def bk7 : Booking :=
  { id := 7, userId := 3, expertId := 1, startTime := 2000, endTime := 4000,
    topic := "t", additionalNotes := "", totalAmount := 5,
    paymentStatus := "pending", bkStatus := "pending",
    transactionId := some "t7", zoomMeetingId := none }

/-- State holding only the pending booking #7. -/
def c3State : PayState :=
  { experts := [{ id := 1, userId := 100 }],
    availabilities := [{ expertId := 1, dayOfWeek := 4, startTod := 0,
                         endTod := 86400 }],
    bookings := [bk7], meetings := [], statusRecords := [],
    nextMeetingRowId := 1 }

/-- Booking #9: pending payment, transaction t9, session 5 already attached,
future slot (2000, 4000) inside expert 1's availability. -/
def bk9 : Booking :=
  { id := 9, userId := 2, expertId := 1, startTime := 2000, endTime := 4000,
    topic := "t", additionalNotes := "", totalAmount := 5,
    paymentStatus := "pending", bkStatus := "pending",
    transactionId := some "t9", zoomMeetingId := some 5 }

/-- State where a status record for t9 already exists with status PENDING. -/
def c6State : PayState :=
  { experts := [{ id := 1, userId := 100 }],
    availabilities := [{ expertId := 1, dayOfWeek := 4, startTod := 0,
                         endTod := 86400 }],
    bookings := [bk9],
    meetings := [{ id := 5, zoomMeetingId := 5550, createdBy := 2 }],
    statusRecords := [{ transactionId := "t9", status := "PENDING" }],
    nextMeetingRowId := 6 }

/-- A gateway webhook payload for transaction t7 reporting SUCCESS. -/
def pl1 : PayunitWebhookPayload :=
  { transactionStatus := "SUCCESS", transactionGateway := "CM_MTN",
    transactionAmount := 100, transactionId := "t7", message := "m",
    transactionCurrency := "XAF", notifyURL := "n", callbackURL := "c" }

/-- Same transaction id as `pl1` but contradictory status and amount. -/
def pl2 : PayunitWebhookPayload :=
  { pl1 with transactionStatus := "FAILED", transactionAmount := 999 }

/-! ## Theorems -/

/-- C7 counterexample: a request by the expert's own user for a past time
slot violates both the self-booking rule and the past-time rule. Under the
spec's listed order (self-booking LAST) the reported reason would be
`pastBooking`, but the source's trigger checks self-booking FIRST and the
insert reports `selfBooking` — the claimed order is wrong. -/
theorem validator_order_cex :
    insertBooking ceDb 0 ceReq 1 = .error .selfBooking ∧
    specOrderValidate ceDb 0 (newRow ceReq 1) = .error .pastBooking ∧
    RejectReason.selfBooking ≠ RejectReason.pastBooking :=
  ⟨rfl, rfl, by decide⟩

/-- C7 (amended): the booking pipeline applies its rules first-failure-wins,
but in the source's order — self-booking first, then past-time, end-after-
start, minimum duration, availability, and the two overlap exclusions last:
`insertBooking` reports exactly the first failing rule of `codeRuleOrder`. -/
theorem booking_rules_first_failure_order (db : DbState) (now : Int)
    (req : BookingRequest) (newId : Int) :
    insertBooking db now req newId =
      (match firstFailure (codeRuleOrder db now (newRow req newId)) with
       | some r => Except.error r
       | none =>
         Except.ok { db with bookings := newRow req newId :: db.bookings }) := by
  simp only [insertBooking, enforceBookingRules, codeRuleOrder, firstFailure]
  split_ifs <;> rfl

lemma rangesOverlap_symm (s1 e1 s2 e2 : Int) :
    rangesOverlap s1 e1 s2 e2 = rangesOverlap s2 e2 s1 e1 := by
  rw [Bool.eq_iff_iff]
  simp only [rangesOverlap, Bool.and_eq_true, decide_eq_true_eq]
  tauto

lemma noExpertOverlap_cons (rows : List Booking) (nb : Booking)
    (hinv : NoExpertOverlap rows)
    (hc : expertOverlapConflict rows nb = false) :
    NoExpertOverlap (nb :: rows) := by
  refine List.pairwise_cons.mpr ⟨?_, hinv⟩
  intro b hb hactnb hactb heq
  rw [Bool.eq_false_iff] at hc
  rw [rangesOverlap_symm]
  by_contra hov
  rw [Bool.not_eq_false] at hov
  apply hc
  simp only [expertOverlapConflict, Bool.and_eq_true, List.any_eq_true]
  exact ⟨hactnb, b, hb, by simp [hactb, heq, hov]⟩

/-- C1: an insert that succeeds preserves the no-overlap invariant over
active same-expert bookings, and an insert whose row would conflict with the
`no_expert_overlap` or `no_user_overlap` exclusion constraint is never
stored. -/
theorem booking_insert_no_overlap (db : DbState) (now : Int)
    (req : BookingRequest) (newId : Int)
    (hinv : NoExpertOverlap db.bookings) :
    (∀ db2, insertBooking db now req newId = .ok db2 →
      NoExpertOverlap db2.bookings) ∧
    ((expertOverlapConflict db.bookings (newRow req newId) = true ∨
      userOverlapConflict db.bookings (newRow req newId) = true) →
      ∀ db2, insertBooking db now req newId ≠ .ok db2) := by
  constructor
  · intro db2 hok
    simp only [insertBooking] at hok
    split at hok
    · exact absurd hok (by simp)
    · split at hok
      · exact absurd hok (by simp)
      · split at hok
        · exact absurd hok (by simp)
        · rename_i hec _
          rw [Bool.not_eq_true] at hec
          cases hok
          exact noExpertOverlap_cons db.bookings (newRow req newId) hinv hec
  · intro hconf db2 hok
    simp only [insertBooking] at hok
    split at hok
    · exact absurd hok (by simp)
    · split at hok
      · exact absurd hok (by simp)
      · split at hok
        · exact absurd hok (by simp)
        · rename_i hec huc
          rw [Bool.not_eq_true] at hec huc
          rcases hconf with h | h
          · rw [hec] at h; exact absurd h (by simp)
          · rw [huc] at h; exact absurd h (by simp)

/-- C1 witness: inserting a valid request into an empty overlap-free table
succeeds and the resulting table satisfies the invariant. -/
theorem booking_insert_no_overlap_witness :
    insertBooking wDb 0 wReq 1 = .ok wDb2 ∧ NoExpertOverlap wDb2.bookings :=
  ⟨rfl, (booking_insert_no_overlap wDb 0 wReq 1 List.Pairwise.nil).1 wDb2 rfl⟩

lemma updPSfun_id (bid : Int) (ps : String) (uid : Int) (b : Booking) :
    (updPSfun bid ps uid b).id = b.id := by
  unfold updPSfun; split <;> rfl

lemma bookingGetByID_map (rows : List Booking) (bid : Int)
    (f : Booking → Booking) (hf : ∀ b, (f b).id = b.id) :
    bookingGetByID (rows.map f) bid = (bookingGetByID rows bid).map f := by
  unfold bookingGetByID
  rw [List.find?_map]
  have hp : ((fun b => b.id == bid) ∘ f) = (fun b => b.id == bid) := by
    funext b
    simp [Function.comp, hf]
  rw [hp]

lemma any_match_of_find (rows : List Booking) (bid : Int) (b : Booking)
    (hb : bookingGetByID rows bid = some b) :
    rows.any (fun r => r.id == bid && r.userId == b.userId) = true := by
  have hpred := List.find?_some hb
  refine List.any_eq_true.mpr ⟨b, List.mem_of_find?_eq_some hb, ?_⟩
  simp only [Bool.and_eq_true]
  exact ⟨hpred, by simp⟩

lemma enforceBookingRules_congr (ctx : DbState) (now : Int) (x y : Booking)
    (h1 : x.userId = y.userId) (h2 : x.expertId = y.expertId)
    (h3 : x.startTime = y.startTime) (h4 : x.endTime = y.endTime) :
    enforceBookingRules ctx now x = enforceBookingRules ctx now y := by
  simp only [enforceBookingRules, withinAvailability, h1, h2, h3, h4]

lemma updatePS_ok (ctx : DbState) (now : Int) (rows : List Booking)
    (bid : Int) (ps : String) (uid : Int)
    (hmatch : rows.any (fun r => r.id == bid && r.userId == uid) = true)
    (hrules : ∀ r ∈ rows, (r.id == bid && r.userId == uid) = true →
      enforceBookingRules ctx now (updPSfun bid ps uid r) = Except.ok ()) :
    bookingsUpdatePaymentStatus ctx now rows bid ps uid =
      Except.ok (rows.map (updPSfun bid ps uid)) := by
  unfold bookingsUpdatePaymentStatus
  rw [if_pos hmatch]
  have hnone : rows.findSome? (fun b =>
      if b.id == bid && b.userId == uid then
        match enforceBookingRules ctx now (updPSfun bid ps uid b) with
        | .error e => some e
        | .ok _ => none
      else none) = none := by
    rw [List.findSome?_eq_none_iff]
    intro r hr
    by_cases hm : (r.id == bid && r.userId == uid) = true
    · rw [if_pos hm, hrules r hr hm]
    · rw [if_neg hm]
  rw [hnone]

lemma updateBk_ok (ctx : DbState) (now : Int) (rows : List Booking)
    (nb : Booking)
    (hmatch : rows.any (fun r => r.id == nb.id) = true)
    (hrules : ∀ r ∈ rows, (r.id == nb.id) = true →
      enforceBookingRules ctx now (updBkFun nb r) = Except.ok ()) :
    bookingsUpdate ctx now rows nb = Except.ok (rows.map (updBkFun nb)) := by
  unfold bookingsUpdate
  rw [if_pos hmatch]
  have hnone : rows.findSome? (fun b =>
      if b.id == nb.id then
        match enforceBookingRules ctx now (updBkFun nb b) with
        | .error e => some e
        | .ok _ => none
      else none) = none := by
    rw [List.findSome?_eq_none_iff]
    intro r hr
    by_cases hm : (r.id == nb.id) = true
    · rw [if_pos hm, hrules r hr hm]
    · rw [if_neg hm]
  rw [hnone]

lemma updPS_rules_of_unique (ctx : DbState) (now : Int) (rows : List Booking)
    (bid : Int) (ps : String) (b : Booking)
    (hunique : ∀ r ∈ rows, r.id = bid → r = b)
    (hrule : enforceBookingRules ctx now b = Except.ok ()) :
    ∀ r ∈ rows, (r.id == bid && r.userId == b.userId) = true →
      enforceBookingRules ctx now (updPSfun bid ps b.userId r) =
        Except.ok () := by
  intro r hr hm
  have hidr : r.id = bid := by
    simpa using ((Bool.and_eq_true _ _).mp hm).1
  rw [hunique r hr hidr] at hm ⊢
  have hstep : updPSfun bid ps b.userId b = { b with paymentStatus := ps } := by
    unfold updPSfun
    rw [if_pos hm]
  rw [hstep]
  exact (enforceBookingRules_congr ctx now _ b rfl rfl rfl rfl).trans hrule

lemma updatePS_ok_of_unique (ctx : DbState) (now : Int) (rows : List Booking)
    (bid : Int) (ps : String) (b : Booking)
    (hfind : bookingGetByID rows bid = some b)
    (hunique : ∀ r ∈ rows, r.id = bid → r = b)
    (hrule : enforceBookingRules ctx now b = Except.ok ()) :
    bookingsUpdatePaymentStatus ctx now rows bid ps b.userId =
      Except.ok (rows.map (updPSfun bid ps b.userId)) :=
  updatePS_ok ctx now rows bid ps b.userId (any_match_of_find rows bid b hfind)
    (updPS_rules_of_unique ctx now rows bid ps b hunique hrule)

lemma unique_map (rows : List Booking) (bid : Int) (b : Booking)
    (f : Booking → Booking) (hf : ∀ x, (f x).id = x.id)
    (hunique : ∀ r ∈ rows, r.id = bid → r = b) :
    ∀ r ∈ rows.map f, r.id = bid → r = f b := by
  intro r hr hid2
  rcases List.mem_map.mp hr with ⟨x, hx, rfl⟩
  rw [hf x] at hid2
  rw [hunique x hx hid2]

lemma updPSfun_self (bid : Int) (ps : String) (b : Booking)
    (hid : (b.id == bid) = true) :
    updPSfun bid ps b.userId b = { b with paymentStatus := ps } := by
  unfold updPSfun
  simp [hid]

lemma recordUpsert_bookings (st : PayState) (txn s : String) :
    (recordUpsert st txn s).bookings = st.bookings := by
  unfold recordUpsert; split <;> rfl

lemma recordUpsert_meetings (st : PayState) (txn s : String) :
    (recordUpsert st txn s).meetings = st.meetings := by
  unfold recordUpsert; split <;> rfl

lemma recordUpsert_nextMeetingRowId (st : PayState) (txn s : String) :
    (recordUpsert st txn s).nextMeetingRowId = st.nextMeetingRowId := by
  unfold recordUpsert; split <;> rfl

lemma recordUpsert_experts (st : PayState) (txn s : String) :
    (recordUpsert st txn s).experts = st.experts := by
  unfold recordUpsert; split <;> rfl

lemma recordUpsert_availabilities (st : PayState) (txn s : String) :
    (recordUpsert st txn s).availabilities = st.availabilities := by
  unfold recordUpsert; split <;> rfl

lemma recordUpsert_rulesDb (st : PayState) (txn s : String) :
    (recordUpsert st txn s).rulesDb = st.rulesDb := by
  unfold recordUpsert; split <;> rfl

lemma recordUpsert_statusRecords (st : PayState) (txn s : String) :
    (recordUpsert st txn s).statusRecords =
      (if checkPaymentStatusExists st.statusRecords txn then st.statusRecords
       else insertPaymentStatus st.statusRecords txn s) := by
  unfold recordUpsert; split <;> rfl

lemma checkExists_insert (recs : List StatusRecord) (txn s : String) :
    checkPaymentStatusExists (insertPaymentStatus recs txn s) txn = true := by
  unfold checkPaymentStatusExists insertPaymentStatus
  simp

lemma recordUpsert_exists (st : PayState) (txn s : String) :
    checkPaymentStatusExists (recordUpsert st txn s).statusRecords txn =
      true := by
  rw [recordUpsert_statusRecords]
  split
  · assumption
  · exact checkExists_insert st.statusRecords txn s

/-- C2 counterexample: booking #42 is already in the terminal `paid` state
and its row passes the re-fired booking trigger (future slot, inside
availability, not self-booked), so the FAILED reconcile — claimed to be a
no-op — goes through and leaves the booking with payment_status `failed`. -/
theorem reconcile_terminal_overwrite_cex :
    (bookingGetByID (getPaymentStatus 0 c2State 42
        (fun _ => Except.ok "FAILED")
        (fun _ => Except.error ())).1.bookings 42).map Booking.paymentStatus =
      some "failed" ∧ ("failed" : String) ≠ "paid" :=
  ⟨rfl, by decide⟩

/-- C2 (amended): reconcile itself has no terminal-state protection.
Whenever the stored row passes the `validate_booking_time` trigger that
re-fires on the UPDATE (the only mechanism that can stop it), reconciling a
FAILED gateway status overwrites the booking's payment_status with `failed`
even if the booking is already `paid`. -/
theorem reconcile_failed_overwrites (now : Int) (st : PayState) (bid : Int)
    (b : Booking) (txn : String)
    (zc : Booking → Except Unit ZoomMeetingInfo)
    (hb : bookingGetByID st.bookings bid = some b)
    (htxn : b.transactionId = some txn)
    (hunique : ∀ r ∈ st.bookings, r.id = bid → r = b)
    (hrule : enforceBookingRules st.rulesDb now b = Except.ok ()) :
    bookingGetByID (getPaymentStatus now st bid (fun _ => Except.ok "FAILED")
        zc).1.bookings bid = some { b with paymentStatus := "failed" } := by
  have hid := List.find?_some hb
  have hP : ("FAILED" : String) ≠ "PENDING" := by decide
  have hS : ("FAILED" : String) ≠ "SUCCESS" := by decide
  have hupd := updatePS_ok_of_unique st.rulesDb now st.bookings bid "failed" b
    hb hunique hrule
  simp only [getPaymentStatus, hb, htxn]
  simp [hP, hS, htxn, applySimpleStatus, recordUpsert_bookings,
    recordUpsert_rulesDb, hupd,
    bookingGetByID_map st.bookings bid _ (updPSfun_id bid "failed" b.userId),
    hb, updPSfun_self bid "failed" b hid]

/-- C2 witness: the amended behaviour evaluated at booking #42. -/
theorem reconcile_failed_overwrites_witness :
    bookingGetByID (getPaymentStatus 0 c2State 42
        (fun _ => Except.ok "FAILED")
        (fun _ => Except.error ())).1.bookings 42 =
      some { bk42 with paymentStatus := "failed" } :=
  reconcile_failed_overwrites 0 c2State 42 bk42 "txn42"
    (fun _ => Except.error ()) rfl rfl (by decide) rfl

/-- C3 counterexample: booking #7 is pending with no session and its row
passes the re-fired booking trigger; the gateway reports SUCCESS but session
creation fails. The claimed atomicity would leave no partial state, yet the
reconcile call returns an error while the booking is observably `paid` with
no session reference. -/
theorem reconcile_partial_paid_cex :
    (getPaymentStatus 0 c3State 7 (fun _ => Except.ok "SUCCESS")
        (fun _ => Except.error ())).2 =
      Except.error ReconcileError.zoomCreationFailed ∧
    (bookingGetByID (getPaymentStatus 0 c3State 7
        (fun _ => Except.ok "SUCCESS")
        (fun _ => Except.error ())).1.bookings 7).map
      (fun b => (b.paymentStatus, b.zoomMeetingId)) = some ("paid", none) :=
  ⟨rfl, rfl⟩

/-- C3 (amended): the paid transition is persisted by its own UPDATE before
session provisioning; when the re-fired booking trigger admits that update
and provisioning then fails, `getPaymentStatus` reports the error but leaves
the booking observably marked `paid` with its session reference still
absent. -/
theorem reconcile_paid_without_session (now : Int) (st : PayState) (bid : Int)
    (b : Booking) (txn : String) (zc : Booking → Except Unit ZoomMeetingInfo)
    (hb : bookingGetByID st.bookings bid = some b)
    (htxn : b.transactionId = some txn)
    (hunique : ∀ r ∈ st.bookings, r.id = bid → r = b)
    (hrule : enforceBookingRules st.rulesDb now b = Except.ok ())
    (hmtg : b.zoomMeetingId = none) (hzc : zc b = Except.error ()) :
    (getPaymentStatus now st bid (fun _ => Except.ok "SUCCESS") zc).2 =
      Except.error ReconcileError.zoomCreationFailed ∧
    ∃ b2, bookingGetByID (getPaymentStatus now st bid
        (fun _ => Except.ok "SUCCESS") zc).1.bookings bid = some b2 ∧
      b2.paymentStatus = "paid" ∧ b2.zoomMeetingId = none := by
  have hid := List.find?_some hb
  have hP : ("SUCCESS" : String) ≠ "PENDING" := by decide
  have hupd := updatePS_ok_of_unique st.rulesDb now st.bookings bid "paid" b
    hb hunique hrule
  simp only [getPaymentStatus, hb, htxn]
  constructor
  · simp [hP, recordUpsert_bookings, recordUpsert_rulesDb, hupd, hmtg, hzc]
  · refine ⟨{ b with paymentStatus := "paid" }, ?_, rfl, hmtg⟩
    simp [hP, recordUpsert_bookings, recordUpsert_rulesDb, hupd, hmtg, hzc,
      bookingGetByID_map st.bookings bid _ (updPSfun_id bid "paid" b.userId),
      hb, updPSfun_self bid "paid" b hid]

/-- C3 witness: the amended behaviour evaluated at booking #7. -/
theorem reconcile_paid_without_session_witness :
    (getPaymentStatus 0 c3State 7 (fun _ => Except.ok "SUCCESS")
        (fun _ => Except.error ())).2 =
      Except.error ReconcileError.zoomCreationFailed ∧
    ∃ b2, bookingGetByID (getPaymentStatus 0 c3State 7
        (fun _ => Except.ok "SUCCESS") (fun _ => Except.error ())).1.bookings
        7 = some b2 ∧ b2.paymentStatus = "paid" ∧ b2.zoomMeetingId = none :=
  reconcile_paid_without_session 0 c3State 7 bk7 "t7"
    (fun _ => Except.error ()) rfl rfl (by decide) rfl rfl rfl

lemma updBkFun_id (nb b : Booking) : (updBkFun nb b).id = b.id := by
  unfold updBkFun; split <;> rfl

lemma updPSfun_idem (bid : Int) (ps : String) (uid : Int) (x : Booking) :
    updPSfun bid ps uid (updPSfun bid ps uid x) = updPSfun bid ps uid x := by
  unfold updPSfun
  by_cases hx : (x.id == bid && x.userId == uid) = true <;> simp [hx]

lemma updPS_updBk_absorb (bid uid : Int) (nb x : Booking) (hnb : nb.id = bid) :
    updPSfun bid "paid" uid (updBkFun nb (updPSfun bid "paid" uid x)) =
      updBkFun nb (updPSfun bid "paid" uid x) := by
  by_cases hx : (x.id == bid && x.userId == uid) = true
  · have h1 : updPSfun bid "paid" uid x = { x with paymentStatus := "paid" } :=
      by unfold updPSfun; rw [if_pos hx]
    rw [h1]
    unfold updBkFun
    rw [if_pos (show (({ x with paymentStatus := "paid" } : Booking).id ==
        nb.id) = true by
      simp only [hnb]
      exact ((Bool.and_eq_true _ _).mp hx).1)]
    unfold updPSfun
    rw [if_pos hx]
  · have h1 : updPSfun bid "paid" uid x = x := by
      unfold updPSfun; rw [if_neg hx]
    rw [h1]
    by_cases hy : (x.id == nb.id) = true
    · have h2 : updBkFun nb x =
          { x with
            zoomMeetingId := nb.zoomMeetingId
            startTime := nb.startTime
            endTime := nb.endTime
            topic := nb.topic
            additionalNotes := nb.additionalNotes
            bkStatus := nb.bkStatus } := by
        unfold updBkFun; rw [if_pos hy]
      rw [h2]
      unfold updPSfun
      rw [if_neg hx]
    · have h2 : updBkFun nb x = x := by
        unfold updBkFun; rw [if_neg hy]
      rw [h2]
      unfold updPSfun
      rw [if_neg hx]

lemma map_updPS_idem (bid uid : Int) (rows : List Booking) :
    (rows.map (updPSfun bid "paid" uid)).map (updPSfun bid "paid" uid) =
      rows.map (updPSfun bid "paid" uid) := by
  rw [List.map_map]
  exact List.map_congr_left (fun x _ => updPSfun_idem bid "paid" uid x)

lemma map_updPS_updBk (bid uid : Int) (nb : Booking) (rows : List Booking)
    (hnb : nb.id = bid) :
    ((rows.map (updPSfun bid "paid" uid)).map (updBkFun nb)).map
        (updPSfun bid "paid" uid) =
      (rows.map (updPSfun bid "paid" uid)).map (updBkFun nb) := by
  rw [List.map_map, List.map_map, List.map_map]
  refine List.map_congr_left ?_
  intro x _
  simp only [Function.comp]
  exact updPS_updBk_absorb bid uid nb x hnb

lemma reconcile_success_stable (now : Int) (s : PayState) (bid : Int)
    (b2 : Booking) (txn : String)
    (zc2 : Booking → Except Unit ZoomMeetingInfo)
    (hb2 : bookingGetByID s.bookings bid = some b2)
    (htxn2 : b2.transactionId = some txn)
    (hex2 : checkPaymentStatusExists s.statusRecords txn = true)
    (hm2 : b2.zoomMeetingId.isSome = true)
    (hupd : bookingsUpdatePaymentStatus s.rulesDb now s.bookings bid "paid"
      b2.userId = Except.ok s.bookings) :
    getPaymentStatus now s bid (fun _ => Except.ok "SUCCESS") zc2 =
      (s, Except.ok "SUCCESS") := by
  have hP : ("SUCCESS" : String) ≠ "PENDING" := by decide
  have hru : recordUpsert s txn "SUCCESS" = s := by
    unfold recordUpsert; rw [if_pos hex2]
  simp only [getPaymentStatus, hb2, htxn2, hru]
  simp [hP, hupd, hm2]

/-- C4: for a booking whose row the re-fired booking trigger admits, with a
gateway that reports SUCCESS and a session provider that creates meetings
deterministically, reconciling twice produces exactly the state of
reconciling once — the second call observes the session reference already
set and provisions nothing — and a booking that had no session ends with
exactly one new session row. -/
theorem reconcile_success_idempotent (now : Int) (st : PayState) (bid : Int)
    (b : Booking) (txn : String) (zc : Booking → ZoomMeetingInfo)
    (hb : bookingGetByID st.bookings bid = some b)
    (htxn : b.transactionId = some txn)
    (hunique : ∀ r ∈ st.bookings, r.id = bid → r = b)
    (hrule : enforceBookingRules st.rulesDb now b = Except.ok ()) :
    getPaymentStatus now (getPaymentStatus now st bid
        (fun _ => Except.ok "SUCCESS") (fun bk => Except.ok (zc bk))).1 bid
        (fun _ => Except.ok "SUCCESS") (fun bk => Except.ok (zc bk)) =
      ((getPaymentStatus now st bid (fun _ => Except.ok "SUCCESS")
          (fun bk => Except.ok (zc bk))).1, Except.ok "SUCCESS") ∧
    (b.zoomMeetingId = none →
      (getPaymentStatus now st bid (fun _ => Except.ok "SUCCESS")
          (fun bk => Except.ok (zc bk))).1.meetings.length =
        st.meetings.length + 1) := by
  have hP : ("SUCCESS" : String) ≠ "PENDING" := by decide
  have hid := List.find?_some hb
  have hidEq : b.id = bid := by simpa using hid
  have hupd1 : bookingsUpdatePaymentStatus st.rulesDb now st.bookings bid
      "paid" b.userId =
      Except.ok (st.bookings.map (updPSfun bid "paid" b.userId)) :=
    updatePS_ok_of_unique st.rulesDb now st.bookings bid "paid" b hb hunique
      hrule
  have hfb : bookingGetByID (st.bookings.map (updPSfun bid "paid" b.userId))
      bid = some { b with paymentStatus := "paid" } := by
    rw [bookingGetByID_map st.bookings bid _ (updPSfun_id bid "paid" b.userId),
      hb]
    simp [updPSfun_self bid "paid" b hid]
  have huniqueF : ∀ r ∈ st.bookings.map (updPSfun bid "paid" b.userId),
      r.id = bid → r = { b with paymentStatus := "paid" } := by
    have h0 := unique_map st.bookings bid b (updPSfun bid "paid" b.userId)
      (updPSfun_id bid "paid" b.userId) hunique
    intro r hr hid2
    rw [h0 r hr hid2, updPSfun_self bid "paid" b hid]
  have hruleF : enforceBookingRules st.rulesDb now
      { b with paymentStatus := "paid" } = Except.ok () :=
    (enforceBookingRules_congr st.rulesDb now _ b rfl rfl rfl rfl).trans hrule
  cases hm : b.zoomMeetingId with
  | some m =>
    have hr1 : getPaymentStatus now st bid (fun _ => Except.ok "SUCCESS")
        (fun bk => Except.ok (zc bk)) =
        ({ recordUpsert st txn "SUCCESS" with
           bookings := st.bookings.map (updPSfun bid "paid" b.userId) },
         Except.ok "SUCCESS") := by
      simp only [getPaymentStatus, hb, htxn]
      simp [hP, recordUpsert_bookings, recordUpsert_rulesDb, hupd1, hm]
    have hupdA : bookingsUpdatePaymentStatus
        ({ recordUpsert st txn "SUCCESS" with
           bookings := st.bookings.map (updPSfun bid "paid" b.userId) }
          : PayState).rulesDb now
        (st.bookings.map (updPSfun bid "paid" b.userId)) bid "paid"
        ({ b with paymentStatus := "paid" } : Booking).userId =
        Except.ok (st.bookings.map (updPSfun bid "paid" b.userId)) := by
      have h1 : ({ recordUpsert st txn "SUCCESS" with
          bookings := st.bookings.map (updPSfun bid "paid" b.userId) }
            : PayState).rulesDb = st.rulesDb :=
        recordUpsert_rulesDb st txn "SUCCESS"
      rw [h1]
      exact (updatePS_ok_of_unique st.rulesDb now
          (st.bookings.map (updPSfun bid "paid" b.userId)) bid "paid"
          { b with paymentStatus := "paid" } hfb huniqueF hruleF).trans
        (congrArg Except.ok (map_updPS_idem bid b.userId st.bookings))
    constructor
    · rw [hr1]
      exact reconcile_success_stable now _ bid
        { b with paymentStatus := "paid" } txn _ hfb htxn
        (recordUpsert_exists st txn "SUCCESS")
        (by simpa using congrArg Option.isSome hm) hupdA
    · intro hnone
      exact absurd hnone (by simp)
  | none =>
    have hany2 : (st.bookings.map (updPSfun bid "paid" b.userId)).any
        (fun r => (r.id == ({ b with
          bkStatus := "confirmed", transactionId := some txn,
          zoomMeetingId := some st.nextMeetingRowId } : Booking).id)) =
        true := by
      refine List.any_eq_true.mpr
        ⟨updPSfun bid "paid" b.userId b,
         List.mem_map_of_mem _ (List.mem_of_find?_eq_some hb), ?_⟩
      simp [updPSfun_id]
    have hstep : updBkFun
        { b with bkStatus := "confirmed", transactionId := some txn,
                 zoomMeetingId := some st.nextMeetingRowId }
        { b with paymentStatus := "paid" } =
        { b with paymentStatus := "paid", bkStatus := "confirmed",
                 zoomMeetingId := some st.nextMeetingRowId } := by
      unfold updBkFun
      rw [if_pos (by simp)]
    have hrulesBk : ∀ r ∈ st.bookings.map (updPSfun bid "paid" b.userId),
        (r.id == ({ b with
          bkStatus := "confirmed", transactionId := some txn,
          zoomMeetingId := some st.nextMeetingRowId } : Booking).id) = true →
        enforceBookingRules st.rulesDb now (updBkFun
          { b with bkStatus := "confirmed", transactionId := some txn,
                   zoomMeetingId := some st.nextMeetingRowId } r) =
          Except.ok () := by
      intro r hr hmr
      have hid2 : r.id = bid := by
        have h4 : r.id = b.id := by simpa using hmr
        rw [h4, hidEq]
      rw [huniqueF r hr hid2, hstep]
      exact (enforceBookingRules_congr st.rulesDb now _ b rfl rfl rfl
        rfl).trans hrule
    have hbu : bookingsUpdate st.rulesDb now
        (st.bookings.map (updPSfun bid "paid" b.userId))
        { b with bkStatus := "confirmed", transactionId := some txn,
                 zoomMeetingId := some st.nextMeetingRowId } =
        Except.ok ((st.bookings.map (updPSfun bid "paid" b.userId)).map
          (updBkFun { b with bkStatus := "confirmed",
                             transactionId := some txn,
                             zoomMeetingId := some st.nextMeetingRowId })) :=
      updateBk_ok st.rulesDb now _ _ hany2 hrulesBk
    have hr1 : getPaymentStatus now st bid (fun _ => Except.ok "SUCCESS")
        (fun bk => Except.ok (zc bk)) =
        ({ recordUpsert st txn "SUCCESS" with
           bookings := (st.bookings.map (updPSfun bid "paid" b.userId)).map
             (updBkFun { b with
               bkStatus := "confirmed", transactionId := some txn,
               zoomMeetingId := some st.nextMeetingRowId })
           meetings := st.meetings ++
             [{ id := st.nextMeetingRowId, zoomMeetingId := (zc b).meetingId,
                createdBy := b.userId }]
           nextMeetingRowId := st.nextMeetingRowId + 1 },
         Except.ok "SUCCESS") := by
      simp only [getPaymentStatus, hb, htxn]
      simp [hP, recordUpsert_bookings, recordUpsert_meetings,
        recordUpsert_nextMeetingRowId, recordUpsert_rulesDb,
        recordUpsert_experts, recordUpsert_availabilities, PayState.rulesDb,
        hupd1, hm, hbu]
    have hgfb : updBkFun
        { b with bkStatus := "confirmed", transactionId := some txn,
                 zoomMeetingId := some st.nextMeetingRowId }
        (updPSfun bid "paid" b.userId b) =
        { b with paymentStatus := "paid", bkStatus := "confirmed",
                 zoomMeetingId := some st.nextMeetingRowId } := by
      rw [updPSfun_self bid "paid" b hid]
      exact hstep
    have hfind2 : bookingGetByID
        ((st.bookings.map (updPSfun bid "paid" b.userId)).map
          (updBkFun { b with bkStatus := "confirmed",
                             transactionId := some txn,
                             zoomMeetingId := some st.nextMeetingRowId }))
        bid =
        some { b with paymentStatus := "paid", bkStatus := "confirmed",
                      zoomMeetingId := some st.nextMeetingRowId } := by
      rw [bookingGetByID_map _ bid _
        (updBkFun_id { b with bkStatus := "confirmed",
                              transactionId := some txn,
                              zoomMeetingId := some st.nextMeetingRowId })]
      rw [bookingGetByID_map st.bookings bid _
        (updPSfun_id bid "paid" b.userId), hb]
      simp [hgfb]
    have huniqueB : ∀ r ∈ (st.bookings.map
        (updPSfun bid "paid" b.userId)).map
        (updBkFun { b with bkStatus := "confirmed",
                           transactionId := some txn,
                           zoomMeetingId := some st.nextMeetingRowId }),
        r.id = bid →
        r = { b with paymentStatus := "paid", bkStatus := "confirmed",
                     zoomMeetingId := some st.nextMeetingRowId } := by
      have h0 := unique_map (st.bookings.map (updPSfun bid "paid" b.userId))
        bid { b with paymentStatus := "paid" }
        (updBkFun { b with bkStatus := "confirmed",
                           transactionId := some txn,
                           zoomMeetingId := some st.nextMeetingRowId })
        (updBkFun_id _) huniqueF
      intro r hr hid2
      rw [h0 r hr hid2, hstep]
    have hruleB : enforceBookingRules st.rulesDb now
        { b with paymentStatus := "paid", bkStatus := "confirmed",
                 zoomMeetingId := some st.nextMeetingRowId } =
        Except.ok () :=
      (enforceBookingRules_congr st.rulesDb now _ b rfl rfl rfl rfl).trans
        hrule
    have hupdB : bookingsUpdatePaymentStatus
        ({ recordUpsert st txn "SUCCESS" with
           bookings := (st.bookings.map (updPSfun bid "paid" b.userId)).map
             (updBkFun { b with
               bkStatus := "confirmed", transactionId := some txn,
               zoomMeetingId := some st.nextMeetingRowId })
           meetings := st.meetings ++
             [{ id := st.nextMeetingRowId, zoomMeetingId := (zc b).meetingId,
                createdBy := b.userId }]
           nextMeetingRowId := st.nextMeetingRowId + 1 }
          : PayState).rulesDb now
        ((st.bookings.map (updPSfun bid "paid" b.userId)).map
          (updBkFun { b with bkStatus := "confirmed",
                             transactionId := some txn,
                             zoomMeetingId := some st.nextMeetingRowId }))
        bid "paid"
        ({ b with paymentStatus := "paid", bkStatus := "confirmed",
                  zoomMeetingId := some st.nextMeetingRowId }
          : Booking).userId =
        Except.ok ((st.bookings.map (updPSfun bid "paid" b.userId)).map
          (updBkFun { b with bkStatus := "confirmed",
                             transactionId := some txn,
                             zoomMeetingId := some st.nextMeetingRowId })) := by
      have h1 : ({ recordUpsert st txn "SUCCESS" with
           bookings := (st.bookings.map (updPSfun bid "paid" b.userId)).map
             (updBkFun { b with
               bkStatus := "confirmed", transactionId := some txn,
               zoomMeetingId := some st.nextMeetingRowId })
           meetings := st.meetings ++
             [{ id := st.nextMeetingRowId, zoomMeetingId := (zc b).meetingId,
                createdBy := b.userId }]
           nextMeetingRowId := st.nextMeetingRowId + 1 }
            : PayState).rulesDb = st.rulesDb :=
        recordUpsert_rulesDb st txn "SUCCESS"
      rw [h1]
      exact (updatePS_ok_of_unique st.rulesDb now
          ((st.bookings.map (updPSfun bid "paid" b.userId)).map
            (updBkFun { b with bkStatus := "confirmed",
                               transactionId := some txn,
                               zoomMeetingId := some st.nextMeetingRowId }))
          bid "paid"
          { b with paymentStatus := "paid", bkStatus := "confirmed",
                   zoomMeetingId := some st.nextMeetingRowId }
          hfind2 huniqueB hruleB).trans
        (congrArg Except.ok (map_updPS_updBk bid b.userId
          { b with bkStatus := "confirmed", transactionId := some txn,
                   zoomMeetingId := some st.nextMeetingRowId }
          st.bookings hidEq))
    constructor
    · rw [hr1]
      exact reconcile_success_stable now _ bid
        { b with paymentStatus := "paid", bkStatus := "confirmed",
                 zoomMeetingId := some st.nextMeetingRowId }
        txn _ hfind2 htxn (recordUpsert_exists st txn "SUCCESS") rfl hupdB
    · intro _
      rw [hr1]
      simp

/-- C4 witness: reconciling SUCCESS twice at booking #7 (whose row the
booking trigger admits) with a deterministic session provider — the second
run returns the first run's state unchanged, and exactly one session row was
created. -/
theorem reconcile_success_idempotent_witness :
    getPaymentStatus 0 (getPaymentStatus 0 c3State 7
        (fun _ => Except.ok "SUCCESS")
        (fun _ => Except.ok ({ meetingId := 777 } : ZoomMeetingInfo))).1 7
      (fun _ => Except.ok "SUCCESS")
      (fun _ => Except.ok ({ meetingId := 777 } : ZoomMeetingInfo)) =
      ((getPaymentStatus 0 c3State 7 (fun _ => Except.ok "SUCCESS")
          (fun _ => Except.ok ({ meetingId := 777 } : ZoomMeetingInfo))).1,
       Except.ok "SUCCESS") ∧
    (getPaymentStatus 0 c3State 7 (fun _ => Except.ok "SUCCESS")
        (fun _ => Except.ok
          ({ meetingId := 777 } : ZoomMeetingInfo))).1.meetings.length =
      c3State.meetings.length + 1 :=
  ⟨(reconcile_success_idempotent 0 c3State 7 bk7 "t7"
      (fun _ => { meetingId := 777 }) rfl rfl (by decide) rfl).1,
   (reconcile_success_idempotent 0 c3State 7 bk7 "t7"
      (fun _ => { meetingId := 777 }) rfl rfl (by decide) rfl).2 rfl⟩

/-- C5: a fetched transaction status outside the known set yields the
unknown-status error and leaves the booking rows and the session rows
untouched (only the audit status record may be written, which is not booking
state). -/
theorem reconcile_unknown_status_no_booking_mutation (now : Int)
    (st : PayState) (bid : Int) (b : Booking) (txn : String) (s : String)
    (zc : Booking → Except Unit ZoomMeetingInfo)
    (hb : bookingGetByID st.bookings bid = some b)
    (htxn : b.transactionId = some txn)
    (h1 : s ≠ "PENDING") (h2 : s ≠ "SUCCESS") (h3 : s ≠ "FAILED")
    (h4 : s ≠ "CANCELLED") :
    (getPaymentStatus now st bid (fun _ => Except.ok s) zc).2 =
      Except.error (ReconcileError.unknownGatewayStatus s) ∧
    (getPaymentStatus now st bid (fun _ => Except.ok s) zc).1.bookings =
      st.bookings ∧
    (getPaymentStatus now st bid (fun _ => Except.ok s) zc).1.meetings =
      st.meetings := by
  refine ⟨?_, ?_, ?_⟩ <;>
    simp [getPaymentStatus, hb, htxn, h1, h2, h3, h4, recordUpsert_bookings,
      recordUpsert_meetings]

/-- C5 witness: the unknown status WEIRD at booking #7. -/
theorem reconcile_unknown_status_witness :
    (getPaymentStatus 0 c3State 7 (fun _ => Except.ok "WEIRD")
        (fun _ => Except.error ())).2 =
      Except.error (ReconcileError.unknownGatewayStatus "WEIRD") ∧
    (getPaymentStatus 0 c3State 7 (fun _ => Except.ok "WEIRD")
        (fun _ => Except.error ())).1.bookings = c3State.bookings ∧
    (getPaymentStatus 0 c3State 7 (fun _ => Except.ok "WEIRD")
        (fun _ => Except.error ())).1.meetings = c3State.meetings :=
  reconcile_unknown_status_no_booking_mutation 0 c3State 7 bk7 "t7" "WEIRD"
    (fun _ => Except.error ()) rfl rfl (by decide) (by decide) (by decide)
    (by decide)

lemma applySimpleStatus_statusRecords (now : Int) (st : PayState) (bid : Int)
    (ps : String) (uid : Int) (fetched : String) :
    (applySimpleStatus now st bid ps uid fetched).1.statusRecords =
      st.statusRecords := by
  unfold applySimpleStatus
  split <;> rfl

lemma getPaymentStatus_statusRecords (now : Int) (st : PayState) (bid : Int)
    (gw : String → Except Unit String)
    (zc : Booking → Except Unit ZoomMeetingInfo) :
    (getPaymentStatus now st bid gw zc).1.statusRecords =
      (match bookingGetByID st.bookings bid with
       | none => st.statusRecords
       | some booking =>
         match booking.transactionId with
         | none => st.statusRecords
         | some txn =>
           match gw txn with
           | .error _ => st.statusRecords
           | .ok s =>
             if checkPaymentStatusExists st.statusRecords txn then
               st.statusRecords
             else insertPaymentStatus st.statusRecords txn s) := by
  simp only [getPaymentStatus]
  repeat' split
  all_goals try rfl
  all_goals simp [applySimpleStatus_statusRecords, recordUpsert_statusRecords]
  all_goals intro h2
  all_goals simp_all

/-- C6 counterexample: a status record for transaction t9 already exists with
status PENDING; the gateway now reports SUCCESS. The claimed upsert would
update the record to the newly fetched status, but `getPaymentStatus` leaves
the record at PENDING. -/
theorem upsert_counterexample :
    (getPaymentStatus 0 c6State 9 (fun _ => Except.ok "SUCCESS")
        (fun _ => Except.error ())).1.statusRecords =
      [{ transactionId := "t9", status := "PENDING" }] ∧
    ("PENDING" : String) ≠ "SUCCESS" :=
  ⟨rfl, by decide⟩

/-- C6 (amended): the existence check by transaction id decides insert
versus skip: when no record exists a fresh one with the fetched status is
inserted, and when one exists the stored record is left unchanged
(`PayunitStore.UpdatePaymentStatus` exists in the source but is never
invoked). -/
theorem status_record_insert_only (now : Int) (st : PayState) (bid : Int)
    (b : Booking) (txn : String) (s : String)
    (gw : String → Except Unit String)
    (zc : Booking → Except Unit ZoomMeetingInfo)
    (hb : bookingGetByID st.bookings bid = some b)
    (htxn : b.transactionId = some txn) (hgw : gw txn = Except.ok s) :
    (checkPaymentStatusExists st.statusRecords txn = true →
      (getPaymentStatus now st bid gw zc).1.statusRecords =
        st.statusRecords) ∧
    (checkPaymentStatusExists st.statusRecords txn = false →
      (getPaymentStatus now st bid gw zc).1.statusRecords =
        insertPaymentStatus st.statusRecords txn s) := by
  have h := getPaymentStatus_statusRecords now st bid gw zc
  simp only [hb, htxn, hgw] at h
  constructor <;> intro hex <;> simp only [hex, if_true, Bool.false_eq_true,
    if_false] at h <;> exact h

/-- C6 witness: the amended behaviour at both a pre-existing record
(transaction t9, left unchanged) and a missing record (transaction t7,
freshly inserted). -/
theorem status_record_insert_only_witness :
    (getPaymentStatus 0 c6State 9 (fun _ => Except.ok "SUCCESS")
        (fun _ => Except.error ())).1.statusRecords =
      c6State.statusRecords ∧
    (getPaymentStatus 0 c3State 7 (fun _ => Except.ok "FAILED")
        (fun _ => Except.error ())).1.statusRecords =
      insertPaymentStatus c3State.statusRecords "t7" "FAILED" :=
  ⟨(status_record_insert_only 0 c6State 9 bk9 "t9" "SUCCESS"
      (fun _ => Except.ok "SUCCESS") (fun _ => Except.error ()) rfl rfl
      rfl).1 rfl,
   (status_record_insert_only 0 c3State 7 bk7 "t7" "FAILED"
      (fun _ => Except.ok "FAILED") (fun _ => Except.error ()) rfl rfl
      rfl).2 rfl⟩

/-- C8: a provider webhook request with a missing signature header, a missing
timestamp header, or a signature different from the keyed hash of
`"v0:" + timestamp + ":" + body` is answered with HTTP 401 and the state is
returned untouched — the authorized event dispatch is never entered. -/
theorem zoom_webhook_rejects_unauthorized (σ : Type)
    (mac : String → String → String) (secret : String)
    (authorized : String → σ → Nat × σ) (sig ts body : String) (st : σ)
    (h : sig = "" ∨ ts = "" ∨
      sig ≠ expectedZoomSignature mac secret ts body) :
    zoomWebhookHandler σ mac secret authorized sig ts body st = (401, st) := by
  rcases h with h | h | h
  · simp [zoomWebhookHandler, h]
  · simp [zoomWebhookHandler, h]
  · by_cases hs : sig = ""
    · simp [zoomWebhookHandler, hs]
    · by_cases ht : ts = ""
      · simp [zoomWebhookHandler, ht]
      · simp [zoomWebhookHandler, hs, ht, h]

/-- C8 witness: a request with the signature header missing is rejected with
401 and the (numeric) state 0 is unchanged, for a concrete keyed hash. -/
theorem zoom_webhook_rejects_unauthorized_witness :
    zoomWebhookHandler Nat (fun k m => k ++ m) "secret"
      (fun _ s => (200, s + 1)) "" "1700000000" "payload" 0 = (401, 0) :=
  zoom_webhook_rejects_unauthorized Nat (fun k m => k ++ m) "secret"
    (fun _ s => (200, s + 1)) "" "1700000000" "payload" 0 (Or.inl rfl)

lemma runTaskAttempts_le (budget used : Nat) (attemptOk : Nat → Bool) :
    (runTaskAttempts budget used attemptOk).attemptsUsed ≤ used + budget := by
  induction budget generalizing used with
  | zero => simp [runTaskAttempts, TaskOutcome.attemptsUsed]
  | succ k ih =>
    unfold runTaskAttempts
    split
    · simp only [TaskOutcome.attemptsUsed]
      omega
    · have := ih (used + 1)
      omega

lemma runTaskAttempts_all_fail (budget used : Nat) (attemptOk : Nat → Bool)
    (h : ∀ n, attemptOk n = false) :
    runTaskAttempts budget used attemptOk = .abandoned (used + budget) := by
  induction budget generalizing used with
  | zero => simp [runTaskAttempts]
  | succ k ih =>
    unfold runTaskAttempts
    rw [h used]
    simp only [Bool.false_eq_true, if_false]
    rw [ih (used + 1)]
    congr 1
    omega

/-- C9: any end-session task the scheduler accepts carries the fixed
30-second per-attempt timeout, is executed at most 3 attempts by the
(spec-modelled) worker loop, and when every attempt fails it ends abandoned
after exactly 3 attempts rather than being retried further. -/
theorem end_session_task_retry_bound (now endTime : Int) (cfg : TaskConfig)
    (attemptOk : Nat → Bool)
    (h : scheduleEndMeeting now endTime = .ok cfg) :
    cfg.timeoutSeconds = 30 ∧ cfg.maxRetry = 3 ∧
    (runScheduledTask cfg attemptOk).attemptsUsed ≤ 3 ∧
    ((∀ n, attemptOk n = false) →
      runScheduledTask cfg attemptOk = .abandoned 3) := by
  have hcfg : cfg = endMeetingTask endTime := by
    unfold scheduleEndMeeting at h
    split at h
    · exact absurd h (by simp)
    · injection h with h2
      exact h2.symm
  subst hcfg
  refine ⟨rfl, rfl, ?_, ?_⟩
  · simpa [runScheduledTask, endMeetingTask] using
      runTaskAttempts_le 3 0 attemptOk
  · intro hfail
    simpa [runScheduledTask, endMeetingTask] using
      runTaskAttempts_all_fail 3 0 attemptOk hfail

/-- C9 witness: a task scheduled 5 seconds ahead whose attempts all fail is
abandoned after exactly 3 attempts. -/
theorem end_session_task_retry_bound_witness :
    (endMeetingTask 5).timeoutSeconds = 30 ∧
    (endMeetingTask 5).maxRetry = 3 ∧
    (runScheduledTask (endMeetingTask 5) (fun _ => false)).attemptsUsed ≤ 3 ∧
    ((∀ n : Nat, (fun _ : Nat => false) n = false) →
      runScheduledTask (endMeetingTask 5) (fun _ => false) =
        .abandoned 3) :=
  end_session_task_retry_bound 0 5 (endMeetingTask 5) (fun _ => false) rfl

/-- C10: the gateway webhook handler's outcome is a function of the payload's
transaction id alone — two payloads carrying the same transaction id but any
other `transaction_status` / `transaction_amount` fields produce the same
response and the same final state, because every state change goes through
`getPaymentStatus`, which re-fetches the status from the gateway itself. -/
theorem payunit_webhook_payload_independent (now : Int) (st : PayState)
    (p1 p2 : PayunitWebhookPayload) (bookingIDParam : Option Int)
    (liveMode remoteAddrTrusted : Bool) (gw : String → Except Unit String)
    (zc : Booking → Except Unit ZoomMeetingInfo)
    (h : p1.transactionId = p2.transactionId) :
    payunitWebHookHandler now st p1 bookingIDParam liveMode remoteAddrTrusted
      gw zc =
    payunitWebHookHandler now st p2 bookingIDParam liveMode remoteAddrTrusted
      gw zc := by
  unfold payunitWebHookHandler
  rw [h]

/-- C10 witness: two payloads for transaction t7 that contradict each other
on status and amount drive the handler to the same response and state. -/
theorem payunit_webhook_payload_independent_witness :
    payunitWebHookHandler 0 c3State pl1 (some 7) false true
      (fun _ => Except.ok "SUCCESS") (fun _ => Except.error ()) =
    payunitWebHookHandler 0 c3State pl2 (some 7) false true
      (fun _ => Except.ok "SUCCESS") (fun _ => Except.error ()) :=
  payunit_webhook_payload_independent 0 c3State pl1 pl2 (some 7) false true
    (fun _ => Except.ok "SUCCESS") (fun _ => Except.error ()) rfl

end Consult
